import Mathlib

/-!
Verification of the echo-core multi-tenant request-routing layer.

This file gives a shallow embedding of the tenant context store
(`backend/shared_configs/contextvars.py`), the tenant infrastructure registry
(`backend/onyx/db/tenant_registry.py`), the tenant resolver middleware
(`backend/ee/onyx/server/middleware/tenant_tracking.py`) and the Vespa client
pool (`backend/onyx/document_index/vespa/tenant_vespa_client.py`), and proves
or refutes the frozen claims about them.

Modelling conventions:
* Python `time.time()` timestamps are modelled as `Nat` values passed
  explicitly to each operation.
* `contextvars.ContextVar` slots are modelled by their observable value
  (the result of `.get()`), and a `set` token by the previous value.
* Fallible Python code is modelled with `Except`; an HTTP error is its
  status code.
* External collaborators that are not part of the sources (the Redis
  session-token store, the credential header extractor, the anonymous-cookie
  decoder) are inputs of the request model, at their interface boundary.
-/

set_option autoImplicit false

namespace EchoCore

/-- Modelled from the spec: `POSTGRES_DEFAULT_SCHEMA` comes from
`shared_configs.configs`, which is not among the repository sources.  It is
the single fixed default schema value; the reference deployment uses
`"public"`. -/
def POSTGRES_DEFAULT_SCHEMA : String := "public"

/-- Modelled from the spec: `is_valid_schema_name` lives in
`onyx.db.engine.sql_engine`, which is not among the repository sources.
Per the spec's format rule, identifiers are non-empty, of bounded length,
and consist of alphanumerics plus underscore and hyphen; embedded quotes,
slashes, dots and spaces are rejected.  The in-repo unit tests
(`tests/unit/test_tenant_registry.py`) agree with this model. -/
def is_valid_schema_name (s : String) : Bool :=
  decide (0 < s.length) && decide (s.length ≤ 63) &&
    s.toList.all (fun c => c.isAlphanum || c = '_' || c = '-')

/-! ## Context store (`shared_configs/contextvars.py`)

The five tenant-related context variables, modelled by their current
observable values.  `tenant_id`, `org_id`, `db_url` and `vespa_url` are
nullable; `isolation_mode` has the non-null default `"schema"`. -/

structure TenantContext where
  tenant_id : Option String
  org_id : Option String
  db_url : Option String
  vespa_url : Option String
  isolation_mode : String
  deriving Repr, DecidableEq

/-- The token dictionary returned by `set_tenant_context`: for each context
variable, `some old` records a token holding the previous value (the
dictionary key is present), `none` means the key is absent. -/
structure TenantTokens where
  tenant_id : Option (Option String)
  org_id : Option (Option String)
  db_url : Option (Option String)
  vespa_url : Option (Option String)
  isolation_mode : Option String
  deriving Repr, DecidableEq

/-- `set_tenant_context(tenant_id, org_id, db_url, vespa_url, isolation_mode)`:
each of the four nullable arguments sets its slot only when non-`None`,
recording a reset token; `isolation_mode` (Python default `"schema"`) is set
unconditionally. -/
def set_tenant_context (tenant_id org_id db_url vespa_url : Option String)
    (isolation_mode : String) (ctx : TenantContext) :
    TenantTokens × TenantContext :=
  ({ tenant_id := tenant_id.map fun _ => ctx.tenant_id
     org_id := org_id.map fun _ => ctx.org_id
     db_url := db_url.map fun _ => ctx.db_url
     vespa_url := vespa_url.map fun _ => ctx.vespa_url
     isolation_mode := some ctx.isolation_mode },
   { tenant_id := match tenant_id with | some v => some v | none => ctx.tenant_id
     org_id := match org_id with | some v => some v | none => ctx.org_id
     db_url := match db_url with | some v => some v | none => ctx.db_url
     vespa_url := match vespa_url with | some v => some v | none => ctx.vespa_url
     isolation_mode := isolation_mode })

/-- `reset_tenant_context(tokens)`: each context variable whose key is present
in the token dictionary is reset to the value recorded by its token. -/
def reset_tenant_context (tokens : TenantTokens) (ctx : TenantContext) :
    TenantContext :=
  { tenant_id := tokens.tenant_id.getD ctx.tenant_id
    org_id := tokens.org_id.getD ctx.org_id
    db_url := tokens.db_url.getD ctx.db_url
    vespa_url := tokens.vespa_url.getD ctx.vespa_url
    isolation_mode := tokens.isolation_mode.getD ctx.isolation_mode }

/-- Result of `get_current_tenant_id`: either the tenant id, or the
`RuntimeError` raised on an unset tenant id under multi-tenancy. -/
inductive TenantIdResult where
  | ok (tenant_id : String)
  | runtimeError
  deriving Repr, DecidableEq

/-- `get_current_tenant_id()`: reads the tenant-id slot; on `None` it returns
`POSTGRES_DEFAULT_SCHEMA` when multi-tenancy is disabled and raises a
`RuntimeError` when it is enabled.  `multiTenant` models the module-level
`MULTI_TENANT` flag, `slot` the observable value of
`CURRENT_TENANT_ID_CONTEXTVAR.get()`. -/
def get_current_tenant_id (multiTenant : Bool) (slot : Option String) :
    TenantIdResult :=
  match slot with
  | none => if multiTenant then .runtimeError else .ok POSTGRES_DEFAULT_SCHEMA
  | some t => .ok t

/-! ## Tenant infrastructure registry (`onyx/db/tenant_registry.py`) -/

/-- `TENANT_CACHE_TTL_SECONDS`: cache TTL, 5 minutes. -/
def TENANT_CACHE_TTL_SECONDS : Nat := 300

/-- `TenantInfrastructure`: one row of the `tenant_infrastructure` table.
The free-form `metadata` map is modelled as an association list. -/
structure TenantInfrastructure where
  organization_id : String
  database_host : String
  database_port : Nat
  database_name : String
  vespa_host : String
  vespa_port : Nat
  status : String
  provisioned_at : Option String := none
  last_health_check : Option String := none
  metadata : Option (List (String × String)) := none
  deriving Repr, DecidableEq

/-- `TenantInfrastructure.database_url`: derived PostgreSQL connection URL. -/
def TenantInfrastructure.database_url (t : TenantInfrastructure) : String :=
  "postgresql://" ++ t.database_host ++ ":" ++ toString t.database_port ++
    "/" ++ t.database_name

/-- `TenantInfrastructure.vespa_url`: derived Vespa endpoint URL. -/
def TenantInfrastructure.vespa_url (t : TenantInfrastructure) : String :=
  "http://" ++ t.vespa_host ++ ":" ++ toString t.vespa_port

/-- `TenantInfrastructure.vespa_config_url`: derived Vespa config-server URL
(fixed port 19071). -/
def TenantInfrastructure.vespa_config_url (t : TenantInfrastructure) : String :=
  "http://" ++ t.vespa_host ++ ":19071"

/-- `TenantInfrastructure.is_active`. -/
def TenantInfrastructure.is_active (t : TenantInfrastructure) : Bool :=
  t.status == "active"

/-- `TenantInfrastructure.is_provisioning`. -/
def TenantInfrastructure.is_provisioning (t : TenantInfrastructure) : Bool :=
  t.status == "provisioning"

/-- `TenantInfrastructure.is_suspended`. -/
def TenantInfrastructure.is_suspended (t : TenantInfrastructure) : Bool :=
  t.status == "suspended"

/-- `CachedTenantEntry`: a cached infrastructure record with its capture
timestamp. -/
structure CachedTenantEntry where
  infrastructure : TenantInfrastructure
  cached_at : Nat
  deriving Repr, DecidableEq

/-- `CachedTenantEntry.is_expired`: `(time.time() - cached_at) > ttl_seconds`.
Timestamps are `Nat`, so a capture time in the future reads as age `0`. -/
def CachedTenantEntry.is_expired (e : CachedTenantEntry) (ttl_seconds : Nat)
    (now : Nat) : Bool :=
  decide (ttl_seconds < now - e.cached_at)

/-- The registry's typed failures (`TenantNotProvisionedError`,
`TenantSuspendedError`). -/
inductive TenantRegistryError where
  | notProvisioned (tenant_id : String)
  | suspendedTenant (tenant_id : String)
  deriving Repr, DecidableEq

/-- Mutable state of the `TenantRegistry` singleton: the cache dictionary and
the tunable TTL. -/
structure TenantRegistryState where
  cache : String → Option CachedTenantEntry
  ttl_seconds : Nat

/-- A freshly initialized registry: empty cache, default TTL. -/
def TenantRegistry.init : TenantRegistryState :=
  { cache := fun _ => none, ttl_seconds := TENANT_CACHE_TTL_SECONDS }

/-- The lookup store (`tenant_infrastructure` table): at most one row per
organization id. -/
abbrev TenantStore := String → Option TenantInfrastructure

/-- `TenantRegistry._query_tenant_infrastructure`: query the store for the
organization's row; absence raises `TenantNotProvisionedError`; a row whose
status is `suspended` raises `TenantSuspendedError`; any other status
(including `provisioning`) is returned. -/
def queryTenantInfrastructure (store : TenantStore) (organization_id : String) :
    Except TenantRegistryError TenantInfrastructure :=
  match store organization_id with
  | none => .error (.notProvisioned organization_id)
  | some infrastructure =>
      if infrastructure.is_suspended then
        .error (.suspendedTenant organization_id)
      else
        .ok infrastructure

/-- `TenantRegistry._get_from_cache`: return the cached record if present and
not expired; an expired entry is deleted (lazy eviction) and treated as a
miss.  Returns the possibly-updated state together with the hit. -/
def getFromCache (st : TenantRegistryState) (organization_id : String)
    (now : Nat) : TenantRegistryState × Option TenantInfrastructure :=
  match st.cache organization_id with
  | none => (st, none)
  | some entry =>
      if entry.is_expired st.ttl_seconds now then
        ({ st with cache := fun o =>
            if o = organization_id then none else st.cache o }, none)
      else
        (st, some entry.infrastructure)

/-- `TenantRegistry._add_to_cache`: store the record with the current
timestamp. -/
def addToCache (st : TenantRegistryState) (organization_id : String)
    (infrastructure : TenantInfrastructure) (now : Nat) : TenantRegistryState :=
  { st with cache := fun o =>
      if o = organization_id then
        some { infrastructure := infrastructure, cached_at := now }
      else st.cache o }

/-- Outcome of one `get_tenant_infrastructure` call: the returned record or
raised error, the registry state afterwards, and whether a lookup-store query
was issued on this call. -/
structure RegistryCallResult where
  result : Except TenantRegistryError TenantInfrastructure
  state : TenantRegistryState
  queriedStore : Bool

/-- The query-then-cache tail of `get_tenant_infrastructure`: issue the store
query; on success cache the record, on a typed failure raise it without
caching. -/
def runStoreQuery (st : TenantRegistryState) (store : TenantStore)
    (organization_id : String) (now : Nat) : RegistryCallResult :=
  match queryTenantInfrastructure store organization_id with
  | .error e => ⟨.error e, st, true⟩
  | .ok infrastructure =>
      ⟨.ok infrastructure, addToCache st organization_id infrastructure now,
        true⟩

/-- `TenantRegistry.get_tenant_infrastructure(organization_id,
platform_session, bypass_cache)`: unless the cache is bypassed, a non-expired
cached entry is returned with no store I/O; otherwise the store is queried
and any successful result cached. -/
def get_tenant_infrastructure (st : TenantRegistryState) (store : TenantStore)
    (organization_id : String) (now : Nat) (bypass_cache : Bool) :
    RegistryCallResult :=
  if bypass_cache then
    runStoreQuery st store organization_id now
  else
    match getFromCache st organization_id now with
    | (st1, some infrastructure) => ⟨.ok infrastructure, st1, false⟩
    | (st1, none) => runStoreQuery st1 store organization_id now

/-- `TenantRegistry.invalidate_cache(organization_id | None)`: drop one
organization's entry, or the whole cache. -/
def invalidate_cache (st : TenantRegistryState)
    (organization_id : Option String) : TenantRegistryState :=
  match organization_id with
  | none => { st with cache := fun _ => none }
  | some org => { st with cache := fun o => if o = org then none else st.cache o }

/-! ## Tenant resolver middleware (`ee/onyx/server/middleware/tenant_tracking.py`)

`_get_tenant_info_from_request` is modelled statement by statement, including
the Python control-flow semantics of its `try / except / finally` block: the
`finally` clause ends in `return` statements, and a `return` executed in a
`finally` clause replaces both the value returned from the `try` body and any
exception propagating out of it. -/

/-- The payload obtained from the session-token store or from a decoded
anonymous-user cookie: the values of the `tenant_id` and `organization_id`
keys (an absent key and a `None` value are both `none`; the Redis path
converts a present `tenant_id` with `str`, which is the identity here). -/
structure TokenData where
  tenant_id : Option String
  organization_id : Option String
  deriving Repr, DecidableEq

/-- Everything `_get_tenant_info_from_request` reads from the request and its
external collaborators, at their interface boundary:
* `x_tenant_id_header` — the `X-Tenant-Id` header;
* `auth_header_tenant` — result of `extract_tenant_from_auth_header`
  (credential-embedded tenant claim, not among the repository sources);
* `redis_token_data` — result of `retrieve_auth_token_data_from_redis`
  (`.error` models the lookup raising);
* `anonymous_user_cookie` — the anonymous-user cookie value;
* `anonymous_user_data` — result of `decode_anonymous_user_jwt_token`
  (`none` models the decode raising);
* `tenant_id_cookie` — the explicit tenant-override cookie. -/
structure TenantRequest where
  x_tenant_id_header : Option String
  auth_header_tenant : Option String
  redis_token_data : Except Unit (Option TokenData)
  anonymous_user_cookie : Option String
  anonymous_user_data : Option TokenData
  tenant_id_cookie : Option String

/-- What one registry lookup reports to the resolver, as seen through
`get_tenant_infrastructure`'s interface: a record, a
`TenantNotProvisionedError`, a `TenantSuspendedError`, or any other
exception (e.g. the lookup store being unavailable). -/
inductive RegistryLookup where
  | found (infrastructure : TenantInfrastructure)
  | notProvisioned
  | suspendedOrg
  | lookupFailure
  deriving Repr, DecidableEq

/-- View a registry state and store as the lookup function the resolver
calls (one `get_tenant_infrastructure(org_id, platform_session)` call). -/
def registryFromStore (st : TenantRegistryState) (store : TenantStore)
    (now : Nat) : String → RegistryLookup :=
  fun org =>
    match (get_tenant_infrastructure st store org now false).result with
    | .ok infrastructure => .found infrastructure
    | .error (.notProvisioned _) => .notProvisioned
    | .error (.suspendedTenant _) => .suspendedOrg

/-- `_lookup_tenant_infrastructure(org_id, ...)`: a found record yields its
derived database and Vespa URLs; `TenantNotProvisionedError` and any
unexpected lookup failure fall back to `(None, None)`;
`TenantSuspendedError` raises `HTTPException(403)` (modelled as the status
code). -/
def lookup_tenant_infrastructure (registry : String → RegistryLookup)
    (org_id : String) : Except Nat (Option String × Option String) :=
  match registry org_id with
  | .found infrastructure =>
      .ok (some infrastructure.database_url, some infrastructure.vespa_url)
  | .notProvisioned => .ok (none, none)
  | .suspendedOrg => .error 403
  | .lookupFailure => .ok (none, none)

/-- The resolved tuple `(tenant_id, org_id, db_url, vespa_url)`. -/
structure ResolvedInfo where
  tenant_id : String
  org_id : Option String
  db_url : Option String
  vespa_url : Option String
  deriving Repr, DecidableEq

/-- The local variables of `_get_tenant_info_from_request` that its `finally`
clause reads, as they stand when control reaches the `finally` clause. -/
structure TryLocals where
  tenant_id : String
  db_url : Option String
  vespa_url : Option String
  deriving Repr, DecidableEq

/-- The `try` body of `_get_tenant_info_from_request` (session-token path,
anonymous-cookie path, default fall-through), reduced to the local state the
`finally` clause observes.  Raised exceptions (the 400 on an invalid tenant
id, the 403 from a suspended organization, the 500 on a Redis failure) leave
the locals as they stood at the raise site; on the anonymous-cookie path the
inner `except Exception` handler additionally swallows `HTTPException`s
raised inside it and falls through to the default return. -/
def tenantInfoTryLocals (mode : String) (registry : String → RegistryLookup)
    (req : TenantRequest) : TryLocals :=
  match req.redis_token_data with
  | .error _ => ⟨POSTGRES_DEFAULT_SCHEMA, none, none⟩
  | .ok (some token_data) =>
      let tenant_id := token_data.tenant_id.getD POSTGRES_DEFAULT_SCHEMA
      if (tenant_id != "") && (! is_valid_schema_name tenant_id) then
        ⟨tenant_id, none, none⟩
      else
        let org_id := match token_data.organization_id with
          | some o => if o != "" then o else tenant_id
          | none => tenant_id
        if (mode == "database") && (org_id != "") then
          match lookup_tenant_infrastructure registry org_id with
          | .error _ => ⟨tenant_id, none, none⟩
          | .ok (db_url, vespa_url) => ⟨tenant_id, db_url, vespa_url⟩
        else ⟨tenant_id, none, none⟩
  | .ok none =>
      match req.anonymous_user_cookie with
      | none => ⟨POSTGRES_DEFAULT_SCHEMA, none, none⟩
      | some cookie =>
          if cookie != "" then
            match req.anonymous_user_data with
            | none => ⟨POSTGRES_DEFAULT_SCHEMA, none, none⟩
            | some data =>
                let tenant_id := data.tenant_id.getD POSTGRES_DEFAULT_SCHEMA
                let org_id := match data.organization_id with
                  | some o => if o != "" then o else tenant_id
                  | none => tenant_id
                if (tenant_id == "") || (! is_valid_schema_name tenant_id) then
                  ⟨tenant_id, none, none⟩
                else if (mode == "database") && (org_id != "") then
                  match lookup_tenant_infrastructure registry org_id with
                  | .error _ => ⟨tenant_id, none, none⟩
                  | .ok (db_url, vespa_url) => ⟨tenant_id, db_url, vespa_url⟩
                else ⟨tenant_id, none, none⟩
          else ⟨POSTGRES_DEFAULT_SCHEMA, none, none⟩

/-- The `finally` clause of `_get_tenant_info_from_request`.  Its `return`
statements decide the call's outcome for every path through the `try` body:
when the locally resolved tenant id is truthy and not the default schema and
a well-formed `TENANT_ID_COOKIE_NAME` cookie is present, it returns the
cookie value as both ids together with the locals' URLs; otherwise it
returns the default tuple. -/
def tenantInfoFinally (req : TenantRequest) (locals : TryLocals) :
    ResolvedInfo :=
  if (locals.tenant_id != "") && (locals.tenant_id != POSTGRES_DEFAULT_SCHEMA)
  then
    match req.tenant_id_cookie with
    | some cookie =>
        if (cookie != "") && is_valid_schema_name cookie then
          ⟨cookie, some cookie, locals.db_url, locals.vespa_url⟩
        else ⟨POSTGRES_DEFAULT_SCHEMA, none, none, none⟩
    | none => ⟨POSTGRES_DEFAULT_SCHEMA, none, none, none⟩
  else ⟨POSTGRES_DEFAULT_SCHEMA, none, none, none⟩

/-- The credential path of `_get_tenant_info_from_request` and, when it falls
through, the `try / finally` construct.  `extract_tenant_from_auth_header`'s
value is used verbatim (no format validation on this path); in
database-isolation mode a suspended organization's 403 propagates, since
this `return` happens before the `try` block.  When no credential claim is
present, the outcome is whatever the `finally` clause returns — that path
can no longer raise. -/
def tenantInfoAuthPath (mode : String) (registry : String → RegistryLookup)
    (req : TenantRequest) : Except Nat ResolvedInfo :=
  match req.auth_header_tenant with
  | some auth_tenant_id =>
      if mode == "database" then
        match lookup_tenant_infrastructure registry auth_tenant_id with
        | .error status => .error status
        | .ok (db_url, vespa_url) =>
            .ok ⟨auth_tenant_id, some auth_tenant_id, db_url, vespa_url⟩
      else .ok ⟨auth_tenant_id, some auth_tenant_id, none, none⟩
  | none => .ok (tenantInfoFinally req (tenantInfoTryLocals mode registry req))

/-- `_get_tenant_info_from_request(request, logger)`.  `mode` models the
module-level `TENANT_ISOLATION_MODE` environment value.  A truthy,
format-valid `X-Tenant-Id` header returns immediately (before the `try`
block, so a suspended organization's 403 propagates from here too);
otherwise control moves to the credential path. -/
def get_tenant_info_from_request (mode : String)
    (registry : String → RegistryLookup) (req : TenantRequest) :
    Except Nat ResolvedInfo :=
  match req.x_tenant_id_header with
  | some h =>
      if (h != "") && is_valid_schema_name h then
        if mode == "database" then
          match lookup_tenant_infrastructure registry h with
          | .error status => .error status
          | .ok (db_url, vespa_url) => .ok ⟨h, some h, db_url, vespa_url⟩
        else .ok ⟨h, some h, none, none⟩
      else tenantInfoAuthPath mode registry req
  | none => tenantInfoAuthPath mode registry req

/-- The `set_tenant_id` middleware body: under multi-tenancy it resolves the
request and populates the context store via `set_tenant_context` (with the
deployment's isolation mode); an exception from the resolver is re-raised
and no context is populated.  Without multi-tenancy it only sets the
tenant-id slot to the default schema. -/
def set_tenant_id_middleware (multiTenant : Bool) (mode : String)
    (registry : String → RegistryLookup) (req : TenantRequest)
    (ctx : TenantContext) : Except Nat TenantContext :=
  if multiTenant then
    match get_tenant_info_from_request mode registry req with
    | .error status => .error status
    | .ok r =>
        .ok (set_tenant_context (some r.tenant_id) r.org_id r.db_url
          r.vespa_url mode ctx).2
  else .ok { ctx with tenant_id := some POSTGRES_DEFAULT_SCHEMA }

/-! ## Tenant Vespa client pool (`onyx/document_index/vespa/tenant_vespa_client.py`)

The pool's dictionary of clients is modelled as an association list in
insertion order (Python `dict` iteration order); `time.time()` is an
explicit `now`; the network outcome of a health probe, if one ends up being
issued, is the explicit `healthOk` input. -/

/-- `TenantVespaClientPool.MAX_CLIENTS`. -/
def MAX_CLIENTS : Nat := 50

/-- `TenantVespaClientPool.HEALTH_CHECK_INTERVAL` (seconds). -/
def HEALTH_CHECK_INTERVAL : Nat := 60

/-- `CachedVespaClient`: a pooled client's metadata (the underlying
`httpx.Client` is determined by `vespa_url` and carries no further state the
claims mention). -/
structure CachedVespaClient where
  vespa_url : String
  created_at : Nat
  last_access : Nat
  last_health_check : Option Nat := none
  is_healthy : Bool := true
  deriving Repr, DecidableEq

/-- The pool's `_clients` dictionary, in insertion order. -/
abbrev VespaPool := List (String × CachedVespaClient)

/-- Dictionary read `self._clients[target_url]` / containment test. -/
def lookupClient : VespaPool → String → Option CachedVespaClient
  | [], _ => none
  | e :: rest, url => if e.1 == url then some e.2 else lookupClient rest url

/-- In-place value update `self._clients[url] = ...` for a key already
present (Python preserves the key's dictionary position). -/
def updateClient (pool : VespaPool) (url : String) (c : CachedVespaClient) :
    VespaPool :=
  pool.map fun e => if e.1 == url then (e.1, c) else e

/-- `TenantVespaClientPool._remove_client`: pop the key's binding (closing
the client). -/
def remove_client : VespaPool → String → VespaPool
  | [], _ => []
  | e :: rest, url => if e.1 == url then rest else e :: remove_client rest url

/-- `TenantVespaClientPool._should_health_check`:
no check yet, or more than `HEALTH_CHECK_INTERVAL` since the last one. -/
def should_health_check (cached : CachedVespaClient) (now : Nat) : Bool :=
  match cached.last_health_check with
  | none => true
  | some t => decide (HEALTH_CHECK_INTERVAL < now - t)

/-- `TenantVespaClientPool._create_client` plus the `CachedVespaClient`
constructor call in `get_client`: a fresh healthy entry. -/
def create_client (url : String) (now : Nat) : CachedVespaClient :=
  { vespa_url := url, created_at := now, last_access := now }

/-- `min(self._clients, key=lambda url: self._clients[url].last_access)`:
the first entry (in iteration order) with the smallest `last_access`. -/
def minByLastAccess : (String × CachedVespaClient) → VespaPool →
    (String × CachedVespaClient)
  | best, [] => best
  | best, e :: rest =>
      minByLastAccess
        (if e.2.last_access < best.2.last_access then e else best) rest

/-- `TenantVespaClientPool._evict_oldest_client`: on a non-empty pool, remove
(and close) the least-recently-accessed client. -/
def evict_oldest_client (pool : VespaPool) : VespaPool :=
  match pool with
  | [] => []
  | e :: rest => remove_client pool (minByLastAccess e rest).1

/-- The miss tail of `get_client`: evict the least-recently-accessed client
when the pool is at capacity, then create and insert the new client (a new
dictionary key is appended in iteration order). -/
def get_client_miss (pool : VespaPool) (target_url : String) (now : Nat) :
    VespaPool × CachedVespaClient :=
  let pool1 := if MAX_CLIENTS ≤ pool.length then evict_oldest_client pool
               else pool
  let c := create_client target_url now
  (pool1 ++ [(target_url, c)], c)

/-- `TenantVespaClientPool.get_client(vespa_url)` for an already-resolved
`target_url`.  On a hit the entry's `last_access` becomes `now`; a due
health check records outcome `healthOk`; a healthy entry is returned, an
unhealthy one is removed and control falls through to the miss tail. -/
def get_client (pool : VespaPool) (target_url : String) (now : Nat)
    (healthOk : Bool) : VespaPool × CachedVespaClient :=
  match lookupClient pool target_url with
  | some cached0 =>
      let cached1 := { cached0 with last_access := now }
      let cached2 :=
        if should_health_check cached1 now then
          { cached1 with is_healthy := healthOk, last_health_check := some now }
        else cached1
      let pool1 := updateClient pool target_url cached2
      if cached2.is_healthy then (pool1, cached2)
      else get_client_miss (remove_client pool1 target_url) target_url now
  | none => get_client_miss pool target_url now

/-! ## Concrete scenarios

Concrete stores, registries and requests used to evaluate the embedded code
on the spec's end-to-end scenarios. -/

/-- The `active` infrastructure row for organization `acct_7` of end-to-end
scenario B (search host `vespa-7.internal`, port `8081`). -/
def infra7 : TenantInfrastructure :=
  { organization_id := "acct_7"
    database_host := "db-7.internal"
    database_port := 5432
    database_name := "echo_acct_7"
    vespa_host := "vespa-7.internal"
    vespa_port := 8081
    status := "active" }

/-- The same row with status `suspended` (end-to-end scenario C). -/
def infra7susp : TenantInfrastructure := { infra7 with status := "suspended" }

/-- Store holding exactly the `active` `acct_7` row. -/
def store7 : TenantStore := fun o => if o = "acct_7" then some infra7 else none

/-- Store holding exactly the `suspended` `acct_7` row. -/
def store7susp : TenantStore :=
  fun o => if o = "acct_7" then some infra7susp else none

/-- Registry view of `store7` from a fresh registry. -/
def registry7 : String → RegistryLookup :=
  registryFromStore TenantRegistry.init store7 0

/-- Registry view of `store7susp` from a fresh registry. -/
def registry7susp : String → RegistryLookup :=
  registryFromStore TenantRegistry.init store7susp 0

/-- Scenario B request: no trusted header, no credential claim, the
session-token store returns `{tenant_id: "org_7", organization_id:
"acct_7"}`, no cookies. -/
def requestB : TenantRequest :=
  { x_tenant_id_header := none
    auth_header_tenant := none
    redis_token_data :=
      .ok (some { tenant_id := some "org_7", organization_id := some "acct_7" })
    anonymous_user_cookie := none
    anonymous_user_data := none
    tenant_id_cookie := none }

/-- A request carrying the trusted header `X-Tenant-Id: acct_7` and nothing
else. -/
def requestHeaderAcct7 : TenantRequest :=
  { x_tenant_id_header := some "acct_7"
    auth_header_tenant := none
    redis_token_data := .ok none
    anonymous_user_cookie := none
    anonymous_user_data := none
    tenant_id_cookie := none }

/-- A request carrying the trusted header `X-Tenant-Id: org_1` together with
the explicit tenant-override cookie `org_2`. -/
def requestHeaderAndCookie : TenantRequest :=
  { x_tenant_id_header := some "org_1"
    auth_header_tenant := none
    redis_token_data := .ok none
    anonymous_user_cookie := none
    anonymous_user_data := none
    tenant_id_cookie := some "org_2" }

/-- Scenario B's request with the explicit tenant-override cookie `org_9`
added (`org_9` has no infrastructure row in `store7`). -/
def requestBCookie : TenantRequest :=
  { requestB with tenant_id_cookie := some "org_9" }

/-- An empty tenant context (all slots unset, schema isolation). -/
def emptyContext : TenantContext :=
  { tenant_id := none, org_id := none, db_url := none, vespa_url := none
    isolation_mode := "schema" }

/-- A pool at full capacity: `MAX_CLIENTS` distinct endpoints `u0 … u49`,
where `u0` is strictly the least recently accessed. -/
def pool50 : VespaPool :=
  (List.range MAX_CLIENTS).map fun i =>
    ("u" ++ toString i,
      { vespa_url := "u" ++ toString i, created_at := 0, last_access := i })

/-! ## Claims about the context store -/

/-- Claim C9: for every prior context state and every `set_tenant_context`
call, `reset_tenant_context` on the returned token set restores each of the
five context slots (tenant id, organization id, database URL, search URL,
isolation mode) to exactly the value it held immediately before that
`set_tenant_context` call.  Since the statement holds for an arbitrary prior
context, it covers nesting: with `ctx := (set A).2`, resetting `set B`'s
tokens yields the state after `set A`. -/
theorem c9_reset_restores_context (t o d v : Option String) (i : String)
    (ctx : TenantContext) :
    reset_tenant_context (set_tenant_context t o d v i ctx).1
      (set_tenant_context t o d v i ctx).2 = ctx := by
  cases t <;> cases o <;> cases d <;> cases v <;> rfl

/-- Claim C10: `set_tenant_context` leaves every slot whose argument is
`None` unchanged (first four conjuncts), but writes the isolation-mode slot
unconditionally with its `isolation_mode` argument (fifth conjunct), whose
Python default is `"schema"` — so a nested call that omits `isolation_mode`
downgrades a `"database"`-mode context to `"schema"` (sixth conjunct) until
the matching `reset_tenant_context` (last conjunct). -/
theorem c10_set_frame_and_isolation_downgrade (t o d v : Option String)
    (i : String) (ctx : TenantContext) :
    (set_tenant_context none o d v i ctx).2.tenant_id = ctx.tenant_id ∧
    (set_tenant_context t none d v i ctx).2.org_id = ctx.org_id ∧
    (set_tenant_context t o none v i ctx).2.db_url = ctx.db_url ∧
    (set_tenant_context t o d none i ctx).2.vespa_url = ctx.vespa_url ∧
    (set_tenant_context t o d v i ctx).2.isolation_mode = i ∧
    (set_tenant_context t o d v "schema" ctx).2.isolation_mode = "schema" ∧
    (reset_tenant_context (set_tenant_context t o d v "schema" ctx).1
        (set_tenant_context t o d v "schema" ctx).2).isolation_mode =
      ctx.isolation_mode :=
  ⟨rfl, rfl, rfl, rfl, rfl, rfl, rfl⟩

/-- Claim C8 counterexample: with multi-tenancy disabled and the tenant-id
slot holding `"org_5"`, `get_current_tenant_id` returns `"org_5"`, not the
fixed default schema value — refuting "when multi-tenancy is disabled,
get_current_tenant_id always returns the single fixed default schema
value". -/
theorem c8_counterexample :
    get_current_tenant_id false (some "org_5") = .ok "org_5" ∧
    TenantIdResult.ok "org_5" ≠ .ok POSTGRES_DEFAULT_SCHEMA :=
  ⟨rfl, by decide⟩

/-- Claim C8 (amended): when multi-tenancy is enabled and the tenant-id slot
is unset (`None`), `get_current_tenant_id` raises; when multi-tenancy is
disabled it never raises, returning the fixed default schema value whenever
the slot is unset and otherwise the stored value. -/
theorem c8_amended_unset_raises_only_when_multi_tenant :
    get_current_tenant_id true none = .runtimeError ∧
    get_current_tenant_id false none = .ok POSTGRES_DEFAULT_SCHEMA ∧
    (∀ slot : Option String, ∃ v,
      get_current_tenant_id false slot = .ok v) ∧
    (∀ s : String, get_current_tenant_id false (some s) = .ok s) := by
  refine ⟨rfl, rfl, ?_, fun s => rfl⟩
  intro slot
  cases slot with
  | none => exact ⟨POSTGRES_DEFAULT_SCHEMA, rfl⟩
  | some s => exact ⟨s, rfl⟩

/-! ## Claims about the resolver -/

/-- Claim C1: end-to-end scenario B evaluated on the code.  The registry
does hold an `active` record for `acct_7` whose derived search locator is
`http://vespa-7.internal:8081` (first two conjuncts); but
`_get_tenant_info_from_request` returns the default tuple — the `return` in
its `finally` clause replaces the session-token path's
`(org_7, acct_7, db, vespa)` return value — and the middleware therefore
populates the context with the default schema and no search locator (last
two conjuncts), contradicting the claimed resolution. -/
theorem c1_scenario_b_locators_dropped :
    infra7.vespa_url = "http://vespa-7.internal:8081" ∧
    registry7 "acct_7" = .found infra7 ∧
    get_tenant_info_from_request "database" registry7 requestB =
      .ok ⟨POSTGRES_DEFAULT_SCHEMA, none, none, none⟩ ∧
    set_tenant_id_middleware true "database" registry7 requestB emptyContext =
      .ok { tenant_id := some POSTGRES_DEFAULT_SCHEMA, org_id := none
            db_url := none, vespa_url := none, isolation_mode := "database" } :=
  ⟨rfl, rfl, rfl, rfl⟩

/-- Claim C2: scenario C evaluated on the code.  With the Registry reporting
`acct_7` suspended, the trusted-header path does abort with the 403
access-denied failure (third conjunct) — but on the session-token path the
same 403 is swallowed by the `return` in the `finally` clause: the resolver
returns the default tuple and the middleware populates a (default) context
and lets the request proceed (last two conjuncts), contradicting "on every
identity-resolution path … aborts with an access-denied failure that
reaches the caller; no tenant context is populated". -/
theorem c2_suspended_not_surfaced_on_session_path :
    registry7susp "acct_7" = .suspendedOrg ∧
    infra7susp.is_suspended = true ∧
    get_tenant_info_from_request "database" registry7susp requestHeaderAcct7 =
      .error 403 ∧
    get_tenant_info_from_request "database" registry7susp requestB =
      .ok ⟨POSTGRES_DEFAULT_SCHEMA, none, none, none⟩ ∧
    set_tenant_id_middleware true "database" registry7susp requestB
        emptyContext =
      .ok { tenant_id := some POSTGRES_DEFAULT_SCHEMA, org_id := none
            db_url := none, vespa_url := none, isolation_mode := "database" } :=
  ⟨rfl, rfl, rfl, rfl, rfl⟩

/-- Claim C3 counterexample: (i) on a request carrying both the trusted
header `org_1` and a well-formed override cookie `org_2`, the resolver
returns `org_1` — the cookie does not take precedence over the trusted
header; (ii) on scenario B's request with override cookie `org_9` (an
organization the Registry reports as not provisioned), the resolver returns
`org_9` as both ids but keeps the locators looked up for `acct_7` — no
infrastructure lookup is re-run for the overriding id, where the claimed
three-outcome rule would have degraded to no locators. -/
theorem c3_counterexample :
    (requestHeaderAndCookie.tenant_id_cookie = some "org_2" ∧
      is_valid_schema_name "org_2" = true ∧
      get_tenant_info_from_request "schema" registry7 requestHeaderAndCookie =
        .ok ⟨"org_1", some "org_1", none, none⟩ ∧
      "org_1" ≠ "org_2") ∧
    (registry7 "org_9" = .notProvisioned ∧
      get_tenant_info_from_request "database" registry7 requestBCookie =
        .ok ⟨"org_9", some "org_9", some infra7.database_url,
          some infra7.vespa_url⟩ ∧
      some infra7.vespa_url ≠ (none : Option String)) :=
  ⟨⟨rfl, rfl, rfl, by decide⟩, ⟨rfl, rfl, by decide⟩⟩

/-- Claim C3 (amended): on the resolution paths that run inside the `try`
block (session token, anonymous cookie), when the locally resolved tenant id
is truthy and differs from the default schema, a well-formed non-empty
tenant-override cookie makes the call return the cookie value as both tenant
id and organization id — together with the database and search locators
already computed for the originally resolved organization; no infrastructure
lookup is re-run for the overriding id.  (Per the counterexample, the cookie
has no effect on the trusted-header and credential paths, which return
before the `try` block.) -/
theorem c3_amended_cookie_overrides_ids_on_try_paths (mode : String)
    (registry : String → RegistryLookup) (req : TenantRequest) (c : String)
    (hheader : req.x_tenant_id_header = none)
    (hauth : req.auth_header_tenant = none)
    (hcookie : req.tenant_id_cookie = some c)
    (hc1 : c ≠ "") (hc2 : is_valid_schema_name c = true)
    (ht1 : (tenantInfoTryLocals mode registry req).tenant_id ≠ "")
    (ht2 : (tenantInfoTryLocals mode registry req).tenant_id ≠
      POSTGRES_DEFAULT_SCHEMA) :
    get_tenant_info_from_request mode registry req =
      .ok { tenant_id := c, org_id := some c
            db_url := (tenantInfoTryLocals mode registry req).db_url
            vespa_url := (tenantInfoTryLocals mode registry req).vespa_url } := by
  simp [get_tenant_info_from_request, hheader, tenantInfoAuthPath, hauth,
    tenantInfoFinally, hcookie, bne_iff_ne, ht1, ht2, hc1, hc2]

/-- Witness for C3's amended theorem at scenario B's request with override
cookie `org_9`: the cookie becomes both ids while `acct_7`'s locators are
kept. -/
theorem c3_amended_witness :
    get_tenant_info_from_request "database" registry7 requestBCookie =
      .ok { tenant_id := "org_9", org_id := some "org_9"
            db_url :=
              (tenantInfoTryLocals "database" registry7 requestBCookie).db_url
            vespa_url :=
              (tenantInfoTryLocals "database" registry7
                requestBCookie).vespa_url } :=
  c3_amended_cookie_overrides_ids_on_try_paths "database" registry7
    requestBCookie "org_9" rfl rfl rfl (by decide) (by decide) (by decide)
    (by decide)

/-- Claim C6: in database-isolation mode, when every Registry lookup reports
`NotProvisioned`, `_get_tenant_info_from_request` never surfaces a failure:
on every path it returns successfully with no database locator and no
search locator. -/
theorem c6_not_provisioned_never_fails (registry : String → RegistryLookup)
    (req : TenantRequest)
    (hreg : ∀ org, registry org = .notProvisioned) :
    ∃ r, get_tenant_info_from_request "database" registry req = .ok r ∧
      r.db_url = none ∧ r.vespa_url = none := by
  have hlook : ∀ org,
      lookup_tenant_infrastructure registry org = .ok (none, none) := by
    intro org
    simp [lookup_tenant_infrastructure, hreg org]
  have htry : (tenantInfoTryLocals "database" registry req).db_url = none ∧
      (tenantInfoTryLocals "database" registry req).vespa_url = none := by
    refine ⟨?_, ?_⟩ <;>
      (unfold tenantInfoTryLocals
       repeat' split <;> try rfl
       all_goals simp_all [hlook])
  have hfin : ∀ L : TryLocals, L.db_url = none → L.vespa_url = none →
      (tenantInfoFinally req L).db_url = none ∧
        (tenantInfoFinally req L).vespa_url = none := by
    intro L h1 h2
    unfold tenantInfoFinally
    repeat' split
    all_goals first | exact ⟨h1, h2⟩ | exact ⟨rfl, rfl⟩
  have hauthpath : ∃ r,
      tenantInfoAuthPath "database" registry req = .ok r ∧
        r.db_url = none ∧ r.vespa_url = none := by
    unfold tenantInfoAuthPath
    cases ha : req.auth_header_tenant with
    | some a =>
        simp only [hlook a]
        exact ⟨_, rfl, rfl, rfl⟩
    | none =>
        exact ⟨_, rfl, (hfin _ htry.1 htry.2).1, (hfin _ htry.1 htry.2).2⟩
  unfold get_tenant_info_from_request
  cases hh : req.x_tenant_id_header with
  | some h =>
      by_cases hv : ((h != "") && is_valid_schema_name h) = true
      · simp only [hv, if_true, hlook h]
        exact ⟨_, rfl, rfl, rfl⟩
      · simp only [hv, if_false]
        exact hauthpath
  | none => exact hauthpath

/-- Witness for C6 at scenario B's request with an all-not-provisioned
registry: the call succeeds. -/
theorem c6_witness :
    (get_tenant_info_from_request "database" (fun _ => .notProvisioned)
      requestB).isOk = true := by
  obtain ⟨r, hr, -, -⟩ :=
    c6_not_provisioned_never_fails (fun _ => .notProvisioned) requestB
      (fun _ => rfl)
  rw [hr]
  rfl

/-! ## Claims about the registry cache -/

theorem runStoreQuery_queried (st : TenantRegistryState) (store : TenantStore)
    (org : String) (now : Nat) :
    (runStoreQuery st store org now).queriedStore = true := by
  unfold runStoreQuery
  split <;> rfl

theorem runStoreQuery_suspended_eq (st : TenantRegistryState)
    (store : TenantStore) (org : String) (now : Nat)
    (infra : TenantInfrastructure) (hrow : store org = some infra)
    (hs : infra.is_suspended = true) :
    runStoreQuery st store org now =
      ⟨.error (.suspendedTenant org), st, true⟩ := by
  unfold runStoreQuery queryTenantInfrastructure
  rw [hrow]
  simp [hs]

theorem runStoreQuery_ok_eq (st : TenantRegistryState) (store : TenantStore)
    (org : String) (now : Nat) (infra : TenantInfrastructure)
    (hrow : store org = some infra) (hs : infra.is_suspended = false) :
    runStoreQuery st store org now =
      ⟨.ok infra, addToCache st org infra now, true⟩ := by
  unfold runStoreQuery queryTenantInfrastructure
  rw [hrow]
  simp [hs]

theorem getFromCache_cache_none (st : TenantRegistryState) (org : String)
    (now : Nat) (h : st.cache org = none) :
    getFromCache st org now = (st, none) := by
  unfold getFromCache
  rw [h]

theorem getFromCache_miss_cache (st : TenantRegistryState) (org : String)
    (now : Nat) (h : (getFromCache st org now).2 = none) :
    (getFromCache st org now).1.cache org = none := by
  cases hc : st.cache org with
  | none =>
      rw [getFromCache_cache_none st org now hc]
      exact hc
  | some e =>
      unfold getFromCache at h ⊢
      rw [hc] at h ⊢
      by_cases he : e.is_expired st.ttl_seconds now = true
      · simp [he]
      · simp [he] at h

theorem get_tenant_infrastructure_no_bypass_miss (st : TenantRegistryState)
    (store : TenantStore) (org : String) (now : Nat)
    (h : (getFromCache st org now).2 = none) :
    get_tenant_infrastructure st store org now false =
      runStoreQuery (getFromCache st org now).1 store org now := by
  have hpair : getFromCache st org now = ((getFromCache st org now).1, none) := by
    rw [← h]
  unfold get_tenant_infrastructure
  rw [hpair]
  rfl

theorem addToCache_cache_self (st : TenantRegistryState) (org : String)
    (infra : TenantInfrastructure) (now : Nat) :
    (addToCache st org infra now).cache org =
      some { infrastructure := infra, cached_at := now } := by
  unfold addToCache
  simp

/-- Claim C4 counterexample: the store row for `acct_7` reports status
`suspended`, yet the lookup neither raises nor issues a store query — it
returns the stale `active` record cached 10 time units earlier by a prior
lookup, still within the TTL window.  This refutes "for every organization
id whose store row reports status suspended, get_tenant_infrastructure
raises before caching, so each of any number of consecutive lookups … issues
its own store query". -/
theorem c4_counterexample :
    store7susp "acct_7" = some infra7susp ∧
    infra7susp.is_suspended = true ∧
    (get_tenant_infrastructure
        (get_tenant_infrastructure TenantRegistry.init store7 "acct_7" 0
          false).state
        store7susp "acct_7" 10 false).result = .ok infra7 ∧
    (get_tenant_infrastructure
        (get_tenant_infrastructure TenantRegistry.init store7 "acct_7" 0
          false).state
        store7susp "acct_7" 10 false).queriedStore = false :=
  ⟨rfl, rfl, rfl, rfl⟩

/-- Claim C4 (amended): provided no non-expired cache entry exists for the
organization at the first lookup, a suspended store row makes
`get_tenant_infrastructure` raise `TenantSuspendedError` before caching and
after issuing a store query, leaving no cache entry behind — so a second
lookup within the TTL window issues its own store query and raises again,
and an un-suspension (the store now returning a non-suspended row) is
observed on the very next call, which also queries the store. -/
theorem c4_amended_suspended_never_cached (st : TenantRegistryState)
    (store store2 : TenantStore) (org : String) (now now2 now3 : Nat)
    (infra infra2 : TenantInfrastructure)
    (hlive : (getFromCache st org now).2 = none)
    (hrow : store org = some infra)
    (hsusp : infra.is_suspended = true)
    (hrow2 : store2 org = some infra2)
    (hact : infra2.is_suspended = false) :
    (get_tenant_infrastructure st store org now false).result =
        .error (.suspendedTenant org) ∧
    (get_tenant_infrastructure st store org now false).queriedStore = true ∧
    (get_tenant_infrastructure st store org now false).state.cache org =
        none ∧
    (get_tenant_infrastructure
        (get_tenant_infrastructure st store org now false).state store org
        now2 false).result = .error (.suspendedTenant org) ∧
    (get_tenant_infrastructure
        (get_tenant_infrastructure st store org now false).state store org
        now2 false).queriedStore = true ∧
    (get_tenant_infrastructure
        (get_tenant_infrastructure st store org now false).state store2 org
        now3 false).result = .ok infra2 ∧
    (get_tenant_infrastructure
        (get_tenant_infrastructure st store org now false).state store2 org
        now3 false).queriedStore = true := by
  have h1 : get_tenant_infrastructure st store org now false =
      ⟨.error (.suspendedTenant org), (getFromCache st org now).1, true⟩ := by
    rw [get_tenant_infrastructure_no_bypass_miss st store org now hlive,
      runStoreQuery_suspended_eq _ store org now infra hrow hsusp]
  have hst1 : (get_tenant_infrastructure st store org now false).state.cache
      org = none := by
    rw [h1]
    exact getFromCache_miss_cache st org now hlive
  have hmiss2 : (getFromCache
      (get_tenant_infrastructure st store org now false).state org now2).2 =
        none := by
    rw [getFromCache_cache_none _ org now2 hst1]
  have hmiss3 : (getFromCache
      (get_tenant_infrastructure st store org now false).state org now3).2 =
        none := by
    rw [getFromCache_cache_none _ org now3 hst1]
  have h2 : get_tenant_infrastructure
      (get_tenant_infrastructure st store org now false).state store org now2
        false =
      ⟨.error (.suspendedTenant org),
        (getFromCache (get_tenant_infrastructure st store org now false).state
          org now2).1, true⟩ := by
    rw [get_tenant_infrastructure_no_bypass_miss _ store org now2 hmiss2,
      runStoreQuery_suspended_eq _ store org now2 infra hrow hsusp]
  have h3 : get_tenant_infrastructure
      (get_tenant_infrastructure st store org now false).state store2 org now3
        false =
      ⟨.ok infra2,
        addToCache
          (getFromCache (get_tenant_infrastructure st store org now
            false).state org now3).1 org infra2 now3, true⟩ := by
    rw [get_tenant_infrastructure_no_bypass_miss _ store2 org now3 hmiss3,
      runStoreQuery_ok_eq _ store2 org now3 infra2 hrow2 hact]
  refine ⟨?_, ?_, hst1, ?_, ?_, ?_, ?_⟩ <;> first
    | (rw [h2]) | (rw [h3]) | (rw [h1])

/-- Witness for C4's amended theorem: a fresh registry, a store with the
suspended `acct_7` row, then a store with the `active` row. -/
theorem c4_amended_witness :
    (get_tenant_infrastructure TenantRegistry.init store7susp "acct_7" 0
        false).result = .error (.suspendedTenant "acct_7") ∧
    (get_tenant_infrastructure TenantRegistry.init store7susp "acct_7" 0
        false).queriedStore = true ∧
    (get_tenant_infrastructure
        (get_tenant_infrastructure TenantRegistry.init store7susp "acct_7" 0
          false).state store7 "acct_7" 5 false).result = .ok infra7 :=
  ⟨(c4_amended_suspended_never_cached TenantRegistry.init store7susp store7
      "acct_7" 0 5 5 infra7susp infra7 rfl rfl rfl rfl rfl).1,
    (c4_amended_suspended_never_cached TenantRegistry.init store7susp store7
      "acct_7" 0 5 5 infra7susp infra7 rfl rfl rfl rfl rfl).2.1,
    (c4_amended_suspended_never_cached TenantRegistry.init store7susp store7
      "acct_7" 0 5 5 infra7susp infra7 rfl rfl rfl rfl rfl).2.2.2.2.2.1⟩

theorem getFromCache_ttl (st : TenantRegistryState) (org : String)
    (now : Nat) : (getFromCache st org now).1.ttl_seconds = st.ttl_seconds := by
  unfold getFromCache
  split
  · rfl
  · split <;> rfl

theorem get_tenant_infrastructure_hit (st : TenantRegistryState)
    (store : TenantStore) (org : String) (now : Nat) (e : CachedTenantEntry)
    (hc : st.cache org = some e)
    (he : e.is_expired st.ttl_seconds now = false) :
    get_tenant_infrastructure st store org now false =
      ⟨.ok e.infrastructure, st, false⟩ := by
  unfold get_tenant_infrastructure getFromCache
  rw [hc]
  simp [he]

theorem getFromCache_expired_miss (st : TenantRegistryState) (org : String)
    (now : Nat) (e : CachedTenantEntry) (hc : st.cache org = some e)
    (he : e.is_expired st.ttl_seconds now = true) :
    (getFromCache st org now).2 = none := by
  unfold getFromCache
  rw [hc]
  simp [he]

/-- Claim C5: `get_tenant_infrastructure` issues a lookup-store query if and
only if `bypass_cache` is true or no non-expired cached entry exists for the
organization id (first conjunct).  Consequently — for a record the store
returns successfully (non-suspended, hence cacheable) — two lookups within
the TTL window with no intervening invalidate issue exactly one store query
(the second is a cache hit returning the same record with zero I/O), while a
second lookup after the TTL window has elapsed issues a second store query,
the expired entry being evicted and replaced on that access (second
conjunct). -/
theorem c5_query_iff_bypass_or_no_live_entry :
    (∀ (st : TenantRegistryState) (store : TenantStore) (org : String)
        (now : Nat) (bypass : Bool),
      (get_tenant_infrastructure st store org now bypass).queriedStore = true ↔
        (bypass = true ∨ ∀ e, st.cache org = some e →
          e.is_expired st.ttl_seconds now = true)) ∧
    (∀ (st : TenantRegistryState) (store : TenantStore) (org : String)
        (now1 now2 : Nat) (infra : TenantInfrastructure),
      store org = some infra → infra.is_suspended = false →
      (getFromCache st org now1).2 = none →
      (get_tenant_infrastructure st store org now1 false).queriedStore = true ∧
      (get_tenant_infrastructure st store org now1 false).result = .ok infra ∧
      (now2 - now1 ≤ st.ttl_seconds →
        (get_tenant_infrastructure
            (get_tenant_infrastructure st store org now1 false).state store org
            now2 false).queriedStore = false ∧
        (get_tenant_infrastructure
            (get_tenant_infrastructure st store org now1 false).state store org
            now2 false).result = .ok infra) ∧
      (st.ttl_seconds < now2 - now1 →
        (get_tenant_infrastructure
            (get_tenant_infrastructure st store org now1 false).state store org
            now2 false).queriedStore = true ∧
        (get_tenant_infrastructure
            (get_tenant_infrastructure st store org now1 false).state store org
            now2 false).state.cache org =
          some { infrastructure := infra, cached_at := now2 })) := by
  constructor
  · intro st store org now bypass
    cases bypass with
    | true => simp [get_tenant_infrastructure, runStoreQuery_queried]
    | false =>
        cases hc : st.cache org with
        | none =>
            rw [get_tenant_infrastructure_no_bypass_miss st store org now
              (by rw [getFromCache_cache_none st org now hc])]
            simp [runStoreQuery_queried, hc]
        | some e =>
            by_cases he : e.is_expired st.ttl_seconds now = true
            · rw [get_tenant_infrastructure_no_bypass_miss st store org now
                (getFromCache_expired_miss st org now e hc he)]
              simp [runStoreQuery_queried, hc, he]
            · rw [get_tenant_infrastructure_hit st store org now e hc
                (by simpa using he)]
              simp [hc, he]
  · intro st store org now1 now2 infra hrow hns hmiss
    have h1 : get_tenant_infrastructure st store org now1 false =
        ⟨.ok infra, addToCache (getFromCache st org now1).1 org infra now1,
          true⟩ := by
      rw [get_tenant_infrastructure_no_bypass_miss st store org now1 hmiss,
        runStoreQuery_ok_eq _ store org now1 infra hrow hns]
    have hcache : (get_tenant_infrastructure st store org now1
        false).state.cache org =
        some { infrastructure := infra, cached_at := now1 } := by
      rw [h1]
      exact addToCache_cache_self _ org infra now1
    have httl : (get_tenant_infrastructure st store org now1
        false).state.ttl_seconds = st.ttl_seconds := by
      rw [h1]
      exact getFromCache_ttl st org now1
    refine ⟨by rw [h1], by rw [h1], ?_, ?_⟩
    · intro hin
      have hexp : CachedTenantEntry.is_expired
          { infrastructure := infra, cached_at := now1 }
          (get_tenant_infrastructure st store org now1
            false).state.ttl_seconds now2 = false := by
        rw [httl]
        simpa [CachedTenantEntry.is_expired] using Nat.not_lt.mpr hin
      rw [get_tenant_infrastructure_hit _ store org now2 _ hcache hexp]
      exact ⟨rfl, rfl⟩
    · intro hout
      have hexp : CachedTenantEntry.is_expired
          { infrastructure := infra, cached_at := now1 }
          (get_tenant_infrastructure st store org now1
            false).state.ttl_seconds now2 = true := by
        rw [httl]
        simpa [CachedTenantEntry.is_expired] using hout
      have hmiss2 := getFromCache_expired_miss _ org now2 _ hcache hexp
      rw [get_tenant_infrastructure_no_bypass_miss _ store org now2 hmiss2,
        runStoreQuery_ok_eq _ store org now2 infra hrow hns]
      exact ⟨rfl, addToCache_cache_self _ org infra now2⟩

/-- Witness for C5: a fresh registry with the `active` `acct_7` row — the
first lookup queries the store, a second within the TTL does not, a second
after the TTL does. -/
theorem c5_witness :
    (get_tenant_infrastructure TenantRegistry.init store7 "acct_7" 0
        false).queriedStore = true ∧
    (get_tenant_infrastructure
        (get_tenant_infrastructure TenantRegistry.init store7 "acct_7" 0
          false).state store7 "acct_7" 100 false).queriedStore = false ∧
    (get_tenant_infrastructure
        (get_tenant_infrastructure TenantRegistry.init store7 "acct_7" 0
          false).state store7 "acct_7" 301 false).queriedStore = true :=
  ⟨(c5_query_iff_bypass_or_no_live_entry.2 TenantRegistry.init store7 "acct_7"
      0 100 infra7 rfl rfl rfl).1,
    ((c5_query_iff_bypass_or_no_live_entry.2 TenantRegistry.init store7
        "acct_7" 0 100 infra7 rfl rfl rfl).2.2.1 (by decide)).1,
    ((c5_query_iff_bypass_or_no_live_entry.2 TenantRegistry.init store7
        "acct_7" 0 301 infra7 rfl rfl rfl).2.2.2 (by decide)).1⟩

/-! ## Claims about the client pool -/

theorem minByLastAccess_mem (best : String × CachedVespaClient)
    (l : VespaPool) :
    minByLastAccess best l = best ∨ minByLastAccess best l ∈ l := by
  induction l generalizing best with
  | nil => exact .inl rfl
  | cons e rest ih =>
      rw [minByLastAccess]
      rcases ih (if e.2.last_access < best.2.last_access then e else best) with
        h | h
      · rw [h]
        by_cases hlt : e.2.last_access < best.2.last_access
        · rw [if_pos hlt]
          exact .inr (List.mem_cons_self e rest)
        · rw [if_neg hlt]
          exact .inl rfl
      · exact .inr (List.mem_cons_of_mem e h)

theorem minByLastAccess_mem_cons (e : String × CachedVespaClient)
    (rest : VespaPool) : minByLastAccess e rest ∈ e :: rest := by
  rcases minByLastAccess_mem e rest with h | h
  · rw [h]
    exact List.mem_cons_self e rest
  · exact List.mem_cons_of_mem e h

theorem minByLastAccess_le (best : String × CachedVespaClient)
    (l : VespaPool) :
    ∀ x ∈ best :: l,
      (minByLastAccess best l).2.last_access ≤ x.2.last_access := by
  induction l generalizing best with
  | nil =>
      intro x hx
      rcases List.mem_cons.mp hx with rfl | h
      · exact Nat.le_refl _
      · cases h
  | cons e rest ih =>
      intro x hx
      rw [minByLastAccess]
      have hmb := ih (if e.2.last_access < best.2.last_access then e else best)
        _ (List.mem_cons_self _ _)
      rcases List.mem_cons.mp hx with rfl | hx2
      · refine Nat.le_trans hmb ?_
        by_cases hlt : e.2.last_access < x.2.last_access
        · rw [if_pos hlt]
          exact Nat.le_of_lt hlt
        · rw [if_neg hlt]
      · rcases List.mem_cons.mp hx2 with rfl | hx3
        · refine Nat.le_trans hmb ?_
          by_cases hlt : x.2.last_access < best.2.last_access
          · rw [if_pos hlt]
          · rw [if_neg hlt]
            exact Nat.le_of_not_lt hlt
        · exact ih _ x (List.mem_cons_of_mem _ hx3)

theorem minByLastAccess_eq_of_strict (best : String × CachedVespaClient)
    (l : VespaPool) (m : String × CachedVespaClient) (hm : m ∈ best :: l)
    (hmin : ∀ x ∈ best :: l, x ≠ m → m.2.last_access < x.2.last_access) :
    minByLastAccess best l = m := by
  by_contra hne
  have h1 : m.2.last_access < (minByLastAccess best l).2.last_access :=
    hmin _ (minByLastAccess_mem_cons best l) hne
  exact Nat.lt_irrefl _
    (Nat.lt_of_lt_of_le h1 (minByLastAccess_le best l m hm))

theorem evict_oldest_cons (e : String × CachedVespaClient) (rest : VespaPool) :
    evict_oldest_client (e :: rest) =
      remove_client (e :: rest) (minByLastAccess e rest).1 := rfl

theorem evict_oldest_eq_of_strict (pool : VespaPool)
    (m : String × CachedVespaClient) (hm : m ∈ pool)
    (hmin : ∀ e ∈ pool, e ≠ m → m.2.last_access < e.2.last_access) :
    evict_oldest_client pool = remove_client pool m.1 := by
  cases pool with
  | nil => cases hm
  | cons e rest =>
      rw [evict_oldest_cons, minByLastAccess_eq_of_strict e rest m hm hmin]

theorem lookup_isSome_of_mem (pool : VespaPool)
    (x : String × CachedVespaClient) (hx : x ∈ pool) :
    (lookupClient pool x.1).isSome = true := by
  induction pool with
  | nil => cases hx
  | cons e rest ih =>
      rw [lookupClient]
      by_cases he : (e.1 == x.1) = true
      · rw [if_pos he]
        rfl
      · rw [if_neg he]
        rcases List.mem_cons.mp hx with rfl | h
        · exact absurd (beq_self_eq_true x.1) he
        · exact ih h

theorem length_remove_client_of_isSome (pool : VespaPool) (url : String)
    (h : (lookupClient pool url).isSome = true) :
    (remove_client pool url).length + 1 = pool.length := by
  induction pool with
  | nil => simp [lookupClient] at h
  | cons e rest ih =>
      rw [lookupClient] at h
      rw [remove_client]
      by_cases he : (e.1 == url) = true
      · rw [if_pos he]
        rfl
      · rw [if_neg he] at h ⊢
        simp only [List.length_cons]
        rw [ih h]

theorem length_remove_client_le (pool : VespaPool) (url : String) :
    (remove_client pool url).length ≤ pool.length := by
  induction pool with
  | nil => exact Nat.le_refl _
  | cons e rest ih =>
      rw [remove_client]
      by_cases he : (e.1 == url) = true
      · rw [if_pos he]
        exact Nat.le_succ _
      · rw [if_neg he]
        simpa using Nat.succ_le_succ ih

theorem length_updateClient (pool : VespaPool) (url : String)
    (c : CachedVespaClient) :
    (updateClient pool url c).length = pool.length :=
  List.length_map pool _

theorem lookup_updateClient_self (pool : VespaPool) (url : String)
    (c d : CachedVespaClient) (h : lookupClient pool url = some d) :
    lookupClient (updateClient pool url c) url = some c := by
  induction pool with
  | nil => simp [lookupClient] at h
  | cons e rest ih =>
      rw [lookupClient] at h
      rw [updateClient, List.map_cons]
      by_cases he : (e.1 == url) = true
      · rw [if_pos he]
        rw [lookupClient, if_pos he]
      · rw [if_neg he] at h ⊢
        rw [lookupClient, if_neg he]
        exact ih h

theorem mem_updateClient_self (pool : VespaPool) (url : String)
    (c : CachedVespaClient) (x : String × CachedVespaClient)
    (hx : x ∈ updateClient pool url c) (hkey : x.1 = url) : x = (url, c) := by
  rcases List.mem_map.mp hx with ⟨y, -, hy⟩
  by_cases he : (y.1 == url) = true
  · rw [if_pos he] at hy
    rw [← hy] at hkey ⊢
    rw [show y.1 = url from hkey]
  · rw [if_neg he] at hy
    rw [← hy] at hkey
    exact absurd (beq_iff_eq.mpr hkey) he

theorem mem_updateClient_of_ne (pool : VespaPool) (url : String)
    (c : CachedVespaClient) (y : String × CachedVespaClient) (hy : y ∈ pool)
    (hne : y.1 ≠ url) : y ∈ updateClient pool url c := by
  have hb : ¬((y.1 == url) = true) := by
    simpa using hne
  have himg : (fun e : String × CachedVespaClient =>
      if e.1 == url then (e.1, c) else e) y = y := by
    show (if (y.1 == url) = true then (y.1, c) else y) = y
    rw [if_neg hb]
  exact himg ▸ List.mem_map_of_mem _ hy

theorem lookup_remove_client_ne (pool : VespaPool) (k url : String)
    (hne : k ≠ url) :
    lookupClient (remove_client pool k) url = lookupClient pool url := by
  induction pool with
  | nil => rfl
  | cons e rest ih =>
      rw [remove_client]
      by_cases he : (e.1 == k) = true
      · rw [if_pos he]
        have hu : ¬((e.1 == url) = true) := by
          simp only [beq_iff_eq] at he ⊢
          rw [he]
          exact hne
        rw [lookupClient, if_neg hu]
      · rw [if_neg he]
        rw [lookupClient, lookupClient]
        by_cases hu : (e.1 == url) = true
        · rw [if_pos hu, if_pos hu]
        · rw [if_neg hu, if_neg hu]
          exact ih

theorem get_client_miss_capacity (pool : VespaPool) (url : String) (now : Nat)
    (h : pool.length ≤ MAX_CLIENTS) :
    (get_client_miss pool url now).1.length ≤ MAX_CLIENTS := by
  unfold get_client_miss
  by_cases hfull : MAX_CLIENTS ≤ pool.length
  · rw [if_pos hfull]
    cases pool with
    | nil => simp [MAX_CLIENTS] at hfull
    | cons e rest =>
        rw [evict_oldest_cons]
        have h1 := length_remove_client_of_isSome (e :: rest)
          (minByLastAccess e rest).1
          (lookup_isSome_of_mem (e :: rest) _ (minByLastAccess_mem_cons e rest))
        rw [List.length_append]
        simp only [List.length_cons, List.length_nil] at h1 h ⊢
        omega
  · rw [if_neg hfull]
    rw [List.length_append]
    simp only [List.length_cons, List.length_nil]
    omega

theorem get_client_hit (pool : VespaPool) (url : String) (now : Nat)
    (c : CachedVespaClient) (hc : lookupClient pool url = some c)
    (hhealthy : c.is_healthy = true) :
    ∃ c2 : CachedVespaClient,
      get_client pool url now true = (updateClient pool url c2, c2) ∧
      c2.last_access = now := by
  unfold get_client
  rw [hc]
  dsimp only
  by_cases hshc :
      should_health_check { c with last_access := now } now = true
  · rw [if_pos hshc]
    dsimp only
    rw [if_pos rfl]
    exact ⟨_, rfl, rfl⟩
  · rw [if_neg hshc]
    dsimp only
    rw [if_pos hhealthy]
    exact ⟨_, rfl, rfl⟩

/-- Claim C7: (a) with the pool at its maximum of `MAX_CLIENTS` clients, a
`get_client` call for a new distinct endpoint evicts exactly the client
whose last-access timestamp is (strictly) smallest — removing its binding
from the pool, which closes the client — before appending the new client,
so the pool again holds exactly `MAX_CLIENTS` clients; (b) from any pool
within the bound, `get_client` never leaves more than `MAX_CLIENTS` clients;
(c) a hit on an existing healthy endpoint updates that client's last-access
timestamp to `now`, so whenever some other client was last accessed strictly
earlier, the just-accessed client is not the one removed by the next
eviction round. -/
theorem c7_pool_lru :
    (∀ (pool : VespaPool) (url : String) (now : Nat) (hOk : Bool)
        (m : String × CachedVespaClient),
      pool.length = MAX_CLIENTS →
      lookupClient pool url = none →
      m ∈ pool →
      (∀ e ∈ pool, e ≠ m → m.2.last_access < e.2.last_access) →
      (get_client pool url now hOk).1 =
          remove_client pool m.1 ++ [(url, create_client url now)] ∧
        (get_client pool url now hOk).1.length = MAX_CLIENTS) ∧
    (∀ (pool : VespaPool) (url : String) (now : Nat) (hOk : Bool),
      pool.length ≤ MAX_CLIENTS →
      (get_client pool url now hOk).1.length ≤ MAX_CLIENTS) ∧
    (∀ (pool : VespaPool) (url : String) (now : Nat) (c : CachedVespaClient)
        (y : String × CachedVespaClient),
      lookupClient pool url = some c → c.is_healthy = true →
      y ∈ pool → y.1 ≠ url → y.2.last_access < now →
      lookupClient (get_client pool url now true).1 url =
          some (get_client pool url now true).2 ∧
        (get_client pool url now true).2.last_access = now ∧
        lookupClient (evict_oldest_client (get_client pool url now true).1)
            url = some (get_client pool url now true).2) := by
  refine ⟨?_, ?_, ?_⟩
  · -- (a) LRU eviction at capacity
    intro pool url now hOk m hlen hmiss hm hmin
    have h1 : get_client pool url now hOk = get_client_miss pool url now := by
      unfold get_client
      rw [hmiss]
    have h2 : get_client_miss pool url now =
        (evict_oldest_client pool ++ [(url, create_client url now)],
          create_client url now) := by
      unfold get_client_miss
      rw [if_pos (Nat.le_of_eq hlen.symm)]
    have h3 := evict_oldest_eq_of_strict pool m hm hmin
    have h4 := length_remove_client_of_isSome pool m.1
      (lookup_isSome_of_mem pool m hm)
    constructor
    · rw [h1, h2, h3]
    · rw [h1, h2, h3, List.length_append]
      simp only [List.length_cons, List.length_nil]
      omega
  · -- (b) capacity invariant
    intro pool url now hOk hlen
    unfold get_client
    cases hc : lookupClient pool url with
    | none => exact get_client_miss_capacity pool url now hlen
    | some c =>
        dsimp only
        split <;> (dsimp only; split)
        all_goals
          first
          | (show (updateClient pool url _).length ≤ MAX_CLIENTS
             rw [length_updateClient]
             exact hlen)
          | (apply get_client_miss_capacity
             exact Nat.le_trans
               (Nat.le_trans (length_remove_client_le _ url)
                 (Nat.le_of_eq (length_updateClient pool url _)))
               hlen)
  · -- (c) hit updates recency and survives the next eviction round
    intro pool url now c y hc hhealthy hy hyne hylt
    obtain ⟨c2, hget, hc2la⟩ := get_client_hit pool url now c hc hhealthy
    have hlook2 : lookupClient (updateClient pool url c2) url = some c2 :=
      lookup_updateClient_self pool url c2 c hc
    rw [hget]
    refine ⟨hlook2, hc2la, ?_⟩
    cases hp : updateClient pool url c2 with
    | nil =>
        rw [hp] at hlook2
        simp [lookupClient] at hlook2
    | cons e rest =>
        rw [evict_oldest_cons]
        have hminmem : minByLastAccess e rest ∈ updateClient pool url c2 := by
          rw [hp]
          exact minByLastAccess_mem_cons e rest
        have hyin : y ∈ updateClient pool url c2 :=
          mem_updateClient_of_ne pool url c2 y hy hyne
        have hminle : (minByLastAccess e rest).2.last_access ≤
            y.2.last_access :=
          minByLastAccess_le e rest y (hp ▸ hyin)
        have hkne : (minByLastAccess e rest).1 ≠ url := by
          intro hkey
          have heq := mem_updateClient_self pool url c2 _ hminmem hkey
          rw [heq] at hminle
          dsimp only at hminle
          rw [hc2la] at hminle
          exact Nat.lt_irrefl _ (Nat.lt_of_lt_of_le hylt hminle)
        rw [lookup_remove_client_ne _ _ _ hkne, ← hp]
        exact hlook2

/-- Witness for C7 (its eviction part) at a concrete full pool: evicting the
strictly least-recently-accessed `u0` client. -/
theorem c7_witness :
    (get_client pool50 "new" 77 true).1 =
        remove_client pool50 "u0" ++ [("new", create_client "new" 77)] ∧
      (get_client pool50 "new" 77 true).1.length = MAX_CLIENTS :=
  c7_pool_lru.1 pool50 "new" 77 true
    ("u0", { vespa_url := "u0", created_at := 0, last_access := 0 })
    (by decide) (by decide) (by decide) (by decide)


end EchoCore
